import Mathlib

/-
  Verification of the liveness decision engine of the Flashback app
  (src/services/faceDetectionService.ts, MediaPipe-based FaceDetectionService).

  Scalars (eye aspect ratios, mouth distances, normalized coordinates,
  detection rates, confidences) are modelled as rationals; timestamps are
  naturals (milliseconds); counters are naturals.  The per-frame landmark
  analysis of processFaceMeshResults is embedded at the level of the derived
  signals (left and right EAR, mouth opening distance, nose x-coordinate),
  which is exactly the data that function branches on after the pure geometry
  helpers have run.
-/

namespace Flashback

/-- Per-frame detection result record (interface FaceDetectionResult). -/
structure FaceDetectionResult where
  hasFace : Bool
  faceCount : ℕ
  isCentered : Bool
  isGoodSize : Bool
  leftEyeOpen : Bool
  rightEyeOpen : Bool
  confidence : ℚ
  deriving DecidableEq

/-- Mutable per-session state of the MediaPipe FaceDetectionService
(the private fields of the class: blinkCount, blinkInProgress,
livenessPassed, prevNoseX, headMoved, mouthOpenCount, frameCount,
faceDetectionHistory, lastBlinkTime, consecutiveNoFaceFrames). -/
structure DetState where
  blinkCount : ℕ
  blinkInProgress : Bool
  livenessPassed : Bool
  prevNoseX : Option ℚ
  headMoved : Bool
  mouthOpenCount : ℕ
  frameCount : ℕ
  faceDetectionHistory : List FaceDetectionResult
  lastBlinkTime : ℕ
  consecutiveNoFaceFrames : ℕ
  deriving DecidableEq

/-- EAR threshold below which an eye counts as closed (literal 0.20). -/
def CLOSED_THRESHOLD : ℚ := 20 / 100

/-- EAR threshold at or above which the blink-in-progress flag is cleared
(literal 0.25). -/
def OPEN_THRESHOLD : ℚ := 25 / 100

/-- Mouth opening distance threshold (literal 0.04). -/
def MOUTH_THRESHOLD : ℚ := 4 / 100

/-- Nose-x frame-to-frame movement threshold (literal 0.02). -/
def MOVEMENT_THRESHOLD : ℚ := 2 / 100

/-- minBlinkCount in performLivenessCheck. -/
def minBlinkCount : ℕ := 1

/-- minMouthActivity in performLivenessCheck. -/
def minMouthActivity : ℕ := 2

/-- minFaceDetectionRate in performLivenessCheck (literal 0.8). -/
def minFaceDetectionRate : ℚ := 8 / 10

/-- Derived per-frame signal values handed to the tracker logic of
processFaceMeshResults: the two eye aspect ratios, the mouth opening
distance, the nose tip x-coordinate, and the capture time in ms. -/
structure FrameSignals where
  leftEAR : ℚ
  rightEAR : ℚ
  mouthDistance : ℚ
  noseX : ℚ
  now : ℕ
  deriving DecidableEq

/-- avgEAR = (leftEAR + rightEAR) / 2.0. -/
def avgEAR (f : FrameSignals) : ℚ := (f.leftEAR + f.rightEAR) / 2

/-- detectHeadMovement: with a stored previous nose x, the movement is the
absolute frame-to-frame delta; on the first call there is no baseline and
the movement is 0.  Returns the movement together with the new stored
nose x (the method always overwrites prevNoseX with the current value). -/
def detectHeadMovement (prevNoseX : Option ℚ) (noseX : ℚ) : ℚ × ℚ :=
  match prevNoseX with
  | some p => (|noseX - p|, noseX)
  | none => (0, noseX)

/-- Blink branch of processFaceMeshResults: if avgEAR < 0.20 and no blink is
in progress, register a blink (increment count, set the flag, record the
time); otherwise, if avgEAR >= 0.25, clear the flag. -/
def blinkStep (s : DetState) (f : FrameSignals) : DetState :=
  if avgEAR f < CLOSED_THRESHOLD ∧ s.blinkInProgress = false then
    { s with blinkCount := s.blinkCount + 1, blinkInProgress := true,
             lastBlinkTime := f.now }
  else if OPEN_THRESHOLD ≤ avgEAR f then
    { s with blinkInProgress := false }
  else s

/-- Mouth branch of processFaceMeshResults: if mouthDistance > 0.04,
increment mouthOpenCount. -/
def mouthStep (s : DetState) (f : FrameSignals) : DetState :=
  if MOUTH_THRESHOLD < f.mouthDistance then
    { s with mouthOpenCount := s.mouthOpenCount + 1 }
  else s

/-- Head-movement branch of processFaceMeshResults: compute the movement via
detectHeadMovement (which also advances prevNoseX), and latch headMoved when
the movement exceeds 0.02. -/
def headStep (s : DetState) (f : FrameSignals) : DetState :=
  let m := (detectHeadMovement s.prevNoseX f.noseX).1
  let s4 := { s with prevNoseX := some f.noseX }
  if MOVEMENT_THRESHOLD < m then { s4 with headMoved := true } else s4

/-- livenessPassed assignment inside processFaceMeshResults:
blinkCount >= 1 and headMoved and mouthDistance > 0.04. -/
def livenessFlagStep (s : DetState) (f : FrameSignals) : DetState :=
  { s with livenessPassed :=
      decide (1 ≤ s.blinkCount) && s.headMoved &&
      decide (MOUTH_THRESHOLD < f.mouthDistance) }

/-- One full landmark-analysis step of processFaceMeshResults: bump the frame
counter, then run the blink, mouth, head-movement and livenessPassed updates
in source order. -/
def processFaceMeshStep (s : DetState) (f : FrameSignals) : DetState :=
  livenessFlagStep
    (headStep (mouthStep (blinkStep { s with frameCount := s.frameCount + 1 } f) f) f) f

/-- Per-frame confidence computed inside processFaceMeshResults:
(min(blinkCount / 2, 1) + (headMoved ? 1 : 0) + (mouthDistance > 0.04 ? 1 : 0)) / 3,
evaluated on the state after the updates of this frame. -/
def frameConfidence (s : DetState) (f : FrameSignals) : ℚ :=
  (min ((s.blinkCount : ℚ) / 2) 1 + (if s.headMoved then 1 else 0) +
    (if MOUTH_THRESHOLD < f.mouthDistance then 1 else 0)) / 3

/-- The FaceDetectionResult returned by processFaceMeshResults on success:
hasFace true, one face, centered and good size assumed, eye-open flags from
the per-eye EARs against 0.20, and the per-frame confidence. -/
def meshFrameResult (s : DetState) (f : FrameSignals) : FaceDetectionResult :=
  { hasFace := true, faceCount := 1, isCentered := true, isGoodSize := true,
    leftEyeOpen := decide (CLOSED_THRESHOLD < f.leftEAR),
    rightEyeOpen := decide (CLOSED_THRESHOLD < f.rightEAR),
    confidence := frameConfidence s f }

/-- The FaceDetectionResult produced for a frame in which no face is found
(the error/no-face shape: everything false, confidence 0). -/
def noFaceResult : FaceDetectionResult :=
  { hasFace := false, faceCount := 0, isCentered := false, isGoodSize := false,
    leftEyeOpen := false, rightEyeOpen := false, confidence := 0 }

/-- History push of processFrame: append the result, then if the history
length exceeds 10 drop the oldest entry (shift). -/
def pushHistory (h : List FaceDetectionResult) (r : FaceDetectionResult) :
    List FaceDetectionResult :=
  let h1 := h ++ [r]
  if 10 < h1.length then h1.tail else h1

/-- Bookkeeping of processFrame on one result: increment
consecutiveNoFaceFrames on a miss and reset it to 0 on a detection, then
push the result into the bounded history. -/
def trackFrameResult (s : DetState) (r : FaceDetectionResult) : DetState :=
  let s1 :=
    if r.hasFace = false then
      { s with consecutiveNoFaceFrames := s.consecutiveNoFaceFrames + 1 }
    else
      { s with consecutiveNoFaceFrames := 0 }
  { s1 with faceDetectionHistory := pushHistory s1.faceDetectionHistory r }

/-- State after the reset performed at the start of performLivenessCheck:
every counter zero, every flag false, no baseline nose x, empty history. -/
def initState : DetState :=
  { blinkCount := 0, blinkInProgress := false, livenessPassed := false,
    prevNoseX := none, headMoved := false, mouthOpenCount := 0, frameCount := 0,
    faceDetectionHistory := [], lastBlinkTime := 0, consecutiveNoFaceFrames := 0 }

/-- One sampling tick on which a face is found: the landmark-analysis step
followed by the history and miss-counter bookkeeping of processFrame, with
the result record that the landmark path returns. -/
def processFaceTick (s : DetState) (f : FrameSignals) : DetState :=
  let s1 := processFaceMeshStep s f
  trackFrameResult s1 (meshFrameResult s1 f)

/-- One sampling tick on which no face is found: only the processFrame
bookkeeping runs, on the no-face result. -/
def processNoFaceTick (s : DetState) : DetState := trackFrameResult s noFaceResult

/-- Run the landmark-analysis step over a list of frame signal samples,
starting from the freshly reset session state. -/
def runMesh (fs : List FrameSignals) : DetState := fs.foldl processFaceMeshStep initState

/-- Run the processFrame bookkeeping over a list of frame results, starting
from the freshly reset session state. -/
def runFrames (rs : List FaceDetectionResult) : DetState := rs.foldl trackFrameResult initState

/-- Run full face ticks (landmark analysis plus bookkeeping) over a list of
frame signal samples, starting from the freshly reset session state. -/
def runFaceTicks (fs : List FrameSignals) : DetState := fs.foldl processFaceTick initState

/-- framesWithFace in performLivenessCheck: the number of history entries
whose hasFace flag is set. -/
def framesWithFace (h : List FaceDetectionResult) : ℕ :=
  (h.filter (fun r => r.hasFace)).length

/-- faceDetectionRate in performLivenessCheck: framesWithFace / totalFrames
over the history, and 0 when the history is empty. -/
def faceDetectionRate (h : List FaceDetectionResult) : ℚ :=
  if 0 < h.length then (framesWithFace h : ℚ) / (h.length : ℚ) else 0

/-- blinkConfidence = min(blinkCount / minBlinkCount, 1). -/
def blinkConfidence (s : DetState) : ℚ :=
  min ((s.blinkCount : ℚ) / (minBlinkCount : ℚ)) 1

/-- headMovementConfidence = headMoved ? 1 : 0. -/
def headMovementConfidence (s : DetState) : ℚ := if s.headMoved then 1 else 0

/-- mouthConfidence = min(mouthOpenCount / minMouthActivity, 1). -/
def mouthConfidence (s : DetState) : ℚ :=
  min ((s.mouthOpenCount : ℚ) / (minMouthActivity : ℚ)) 1

/-- faceConfidence = faceDetectionRate. -/
def faceConfidence (s : DetState) : ℚ := faceDetectionRate s.faceDetectionHistory

/-- overallConfidence = (blinkConfidence + headMovementConfidence +
mouthConfidence + faceConfidence) / 4. -/
def overallConfidence (s : DetState) : ℚ :=
  (blinkConfidence s + headMovementConfidence s + mouthConfidence s + faceConfidence s) / 4

/-- isLive in performLivenessCheck: blinkCount >= minBlinkCount and headMoved
and mouthOpenCount >= minMouthActivity and
faceDetectionRate >= minFaceDetectionRate. -/
def isLiveVerdict (s : DetState) : Bool :=
  decide (minBlinkCount ≤ s.blinkCount) && s.headMoved &&
  decide (minMouthActivity ≤ s.mouthOpenCount) &&
  decide (minFaceDetectionRate ≤ faceDetectionRate s.faceDetectionHistory)

/-- Final verdict record (the fields of LivenessResult that carry the
decision data: isLive, confidence, detectedBlinks, faceDetected). -/
structure LivenessResult where
  isLive : Bool
  confidence : ℚ
  detectedBlinks : ℕ
  faceDetected : Bool
  deriving DecidableEq

/-- Verdict construction at the end of performLivenessCheck. -/
def finalizeLiveness (s : DetState) : LivenessResult :=
  { isLive := isLiveVerdict s, confidence := overallConfidence s,
    detectedBlinks := s.blinkCount,
    faceDetected := decide (minFaceDetectionRate < faceDetectionRate s.faceDetectionHistory) }

/-- The environment-configured liveness parameters used by
performLivenessCheck (ENVIRONMENT.LIVENESS). -/
structure LivenessEnv where
  FRAME_PROCESSING_INTERVAL : ℕ
  CHECK_DURATION : ℕ
  MAX_CONSECUTIVE_NO_FACE_FRAMES : ℕ
  deriving DecidableEq

/-- Length of the sampling window of performLivenessCheck: the await on line
847 sleeps for ENVIRONMENT.LIVENESS.CHECK_DURATION before clearing the frame
interval; the duration argument of the function does not appear there. -/
def samplingWindowMs (env : LivenessEnv) (duration : ℕ) : ℕ := env.CHECK_DURATION

/-- Progress percentage reported through the onProgress callback:
min(max((elapsed / duration) * 100, 0), 100). -/
def progressPercent (duration : ℕ) (elapsedMs : ℕ) : ℚ :=
  min (max ((elapsedMs : ℚ) / (duration : ℚ) * 100) 0) 100

/-- Deterministic skeleton of performLivenessCheck: given the environment,
the duration argument, and the list of frame results captured by the
interval during the CHECK_DURATION window, produce the final verdict
together with the sequence of progress percentages reported at the ticks
(tick k runs at elapsed time (k+1) * FRAME_PROCESSING_INTERVAL).  The
duration argument is threaded to the one place the source uses it: the
progress computation. -/
def performLivenessCheckModel (env : LivenessEnv) (duration : ℕ)
    (rs : List FaceDetectionResult) : LivenessResult × List ℚ :=
  let s := runFrames rs
  (finalizeLiveness s,
    (List.range rs.length).map
      (fun k => progressPercent duration ((k + 1) * env.FRAME_PROCESSING_INTERVAL)))

/-- Frame signal sample with both EARs equal, mouth closed, nose centered. -/
def earSig (ear : ℚ) (t : ℕ) : FrameSignals :=
  { leftEAR := ear, rightEAR := ear, mouthDistance := 0, noseX := 1 / 2, now := t }

/-- Frame signal sample with open eyes and a given mouth distance. -/
def mouthSig (d : ℚ) (t : ℕ) : FrameSignals :=
  { leftEAR := 30 / 100, rightEAR := 30 / 100, mouthDistance := d, noseX := 1 / 2, now := t }

/-- Frame signal sample with open eyes, closed mouth, and a given nose x. -/
def noseSig (x : ℚ) (t : ℕ) : FrameSignals :=
  { leftEAR := 30 / 100, rightEAR := 30 / 100, mouthDistance := 0, noseX := x, now := t }

/-- The suffix of at most the 10 most recent entries of a frame-result list. -/
def lastTen (l : List FaceDetectionResult) : List FaceDetectionResult :=
  l.drop (l.length - 10)

/-- A three-tick session with no blink (eyes stay open at EAR 0.30), a head
turn on the second tick (nose x 0.50 to 0.53), mouth open above threshold on
the first two ticks, and a face found on every tick. -/
def noBlinkSession : List FrameSignals :=
  [ { leftEAR := 30 / 100, rightEAR := 30 / 100, mouthDistance := 5 / 100, noseX := 50 / 100, now := 0 },
    { leftEAR := 30 / 100, rightEAR := 30 / 100, mouthDistance := 5 / 100, noseX := 53 / 100, now := 200 },
    { leftEAR := 30 / 100, rightEAR := 30 / 100, mouthDistance := 1 / 100, noseX := 53 / 100, now := 400 } ]

/-- A frame result with a face found. -/
def someFaceResult : FaceDetectionResult :=
  { hasFace := true, faceCount := 1, isCentered := true, isGoodSize := true,
    leftEyeOpen := true, rightEyeOpen := true, confidence := 1 }

/-- A session-end state in which all four hard pass conditions hold. -/
def fullPassState : DetState :=
  { initState with blinkCount := 1, headMoved := true, mouthOpenCount := 2,
                   faceDetectionHistory := [someFaceResult] }

@[simp] lemma blinkStep_headMoved (s : DetState) (f : FrameSignals) :
    (blinkStep s f).headMoved = s.headMoved := by
  unfold blinkStep; split_ifs <;> rfl

@[simp] lemma blinkStep_prevNoseX (s : DetState) (f : FrameSignals) :
    (blinkStep s f).prevNoseX = s.prevNoseX := by
  unfold blinkStep; split_ifs <;> rfl

@[simp] lemma blinkStep_mouthOpenCount (s : DetState) (f : FrameSignals) :
    (blinkStep s f).mouthOpenCount = s.mouthOpenCount := by
  unfold blinkStep; split_ifs <;> rfl

@[simp] lemma mouthStep_blinkCount (s : DetState) (f : FrameSignals) :
    (mouthStep s f).blinkCount = s.blinkCount := by
  unfold mouthStep; split_ifs <;> rfl

@[simp] lemma mouthStep_blinkInProgress (s : DetState) (f : FrameSignals) :
    (mouthStep s f).blinkInProgress = s.blinkInProgress := by
  unfold mouthStep; split_ifs <;> rfl

@[simp] lemma mouthStep_headMoved (s : DetState) (f : FrameSignals) :
    (mouthStep s f).headMoved = s.headMoved := by
  unfold mouthStep; split_ifs <;> rfl

@[simp] lemma mouthStep_prevNoseX (s : DetState) (f : FrameSignals) :
    (mouthStep s f).prevNoseX = s.prevNoseX := by
  unfold mouthStep; split_ifs <;> rfl

@[simp] lemma headStep_blinkInProgress (s : DetState) (f : FrameSignals) :
    (headStep s f).blinkInProgress = s.blinkInProgress := by
  simp only [headStep]; split_ifs <;> rfl

@[simp] lemma headStep_blinkCount (s : DetState) (f : FrameSignals) :
    (headStep s f).blinkCount = s.blinkCount := by
  simp only [headStep]; split_ifs <;> rfl

/-- The head-movement branch latches: afterwards headMoved holds exactly when
it held before or the computed movement exceeds the threshold. -/
lemma headStep_headMoved (s : DetState) (f : FrameSignals) :
    (headStep s f).headMoved =
      (s.headMoved || decide (MOVEMENT_THRESHOLD < (detectHeadMovement s.prevNoseX f.noseX).1)) := by
  simp only [headStep]
  split_ifs with h <;> simp [h]

@[simp] lemma livenessFlagStep_blinkCount (s : DetState) (f : FrameSignals) :
    (livenessFlagStep s f).blinkCount = s.blinkCount := rfl

@[simp] lemma livenessFlagStep_blinkInProgress (s : DetState) (f : FrameSignals) :
    (livenessFlagStep s f).blinkInProgress = s.blinkInProgress := rfl

@[simp] lemma livenessFlagStep_headMoved (s : DetState) (f : FrameSignals) :
    (livenessFlagStep s f).headMoved = s.headMoved := rfl

@[simp] lemma livenessFlagStep_mouthOpenCount (s : DetState) (f : FrameSignals) :
    (livenessFlagStep s f).mouthOpenCount = s.mouthOpenCount := rfl

@[simp] lemma trackFrameResult_history (s : DetState) (r : FaceDetectionResult) :
    (trackFrameResult s r).faceDetectionHistory = pushHistory s.faceDetectionHistory r := by
  unfold trackFrameResult
  split_ifs <;> rfl

/-- A list of length at most 10 is its own last-ten suffix. -/
lemma lastTen_of_le (l : List FaceDetectionResult) (hl : l.length ≤ 10) :
    lastTen l = l := by
  unfold lastTen
  rw [Nat.sub_eq_zero_of_le hl, List.drop_zero]

/-- Pushing onto a history of length at most 10 keeps exactly the last ten
entries of the extended sequence, and the bound is preserved. -/
lemma pushHistory_spec (h : List FaceDetectionResult) (r : FaceDetectionResult)
    (hle : h.length ≤ 10) :
    pushHistory h r = lastTen (h ++ [r]) ∧ (pushHistory h r).length ≤ 10 := by
  unfold pushHistory
  rcases Nat.lt_or_ge h.length 10 with hlt | hge
  · have hcond : ¬ 10 < (h ++ [r]).length := by simp; omega
    rw [if_neg hcond, lastTen_of_le]
    · exact ⟨rfl, by simp; omega⟩
    · simp; omega
  · have h10 : h.length = 10 := le_antisymm hle hge
    have hcond : 10 < (h ++ [r]).length := by simp [h10]
    rw [if_pos hcond]
    constructor
    · unfold lastTen
      rw [show (h ++ [r]).length - 10 = 1 by simp [h10], List.drop_one]
    · simp [h10]

/-- Dropping the oldest entry of an 11-entry history does not change the
last-ten suffix after any further frames are appended. -/
lemma lastTen_tail_append (l rs : List FaceDetectionResult) (h11 : l.length = 11) :
    lastTen (l.tail ++ rs) = lastTen (l ++ rs) := by
  cases l with
  | nil => simp at h11
  | cons a t =>
    have ht : t.length = 10 := by simpa using h11
    unfold lastTen
    rw [List.tail_cons]
    have e1 : (t ++ rs).length - 10 = rs.length := by
      rw [List.length_append, ht]; omega
    have e2 : ((a :: t) ++ rs).length - 10 = rs.length + 1 := by
      rw [List.length_append, List.length_cons, ht]; omega
    rw [e1, e2, List.cons_append, List.drop_succ_cons]

/-- Folding the processFrame bookkeeping keeps the history equal to the
last-ten suffix of everything appended so far. -/
lemma foldl_trackFrameResult_history (rs : List FaceDetectionResult) :
    ∀ (s : DetState), s.faceDetectionHistory.length ≤ 10 →
      (rs.foldl trackFrameResult s).faceDetectionHistory =
        lastTen (s.faceDetectionHistory ++ rs) := by
  induction rs with
  | nil =>
    intro s hs
    simpa using (lastTen_of_le _ hs).symm
  | cons r rs ih =>
    intro s hs
    rw [List.foldl_cons]
    obtain ⟨heq, hlen⟩ := pushHistory_spec s.faceDetectionHistory r hs
    have hhist : (trackFrameResult s r).faceDetectionHistory =
        pushHistory s.faceDetectionHistory r := trackFrameResult_history s r
    have := ih (trackFrameResult s r) (by rw [hhist]; exact hlen)
    rw [this, hhist, heq]
    rcases Nat.lt_or_ge (s.faceDetectionHistory ++ [r]).length 11 with hlt | hge
    · rw [lastTen_of_le (s.faceDetectionHistory ++ [r]) (by omega)]
      rw [List.append_assoc, List.singleton_append]
    · have h11 : (s.faceDetectionHistory ++ [r]).length = 11 := by
        simp at hge ⊢; omega
      have htail : lastTen (s.faceDetectionHistory ++ [r]) =
          (s.faceDetectionHistory ++ [r]).tail := by
        unfold lastTen
        rw [show (s.faceDetectionHistory ++ [r]).length - 10 = 1 by omega, List.drop_one]
      rw [htail, lastTen_tail_append _ _ h11, List.append_assoc, List.singleton_append]

/-- The session history after any run is exactly the last ten frame results. -/
lemma runFrames_history (rs : List FaceDetectionResult) :
    (runFrames rs).faceDetectionHistory = lastTen rs := by
  unfold runFrames
  rw [foldl_trackFrameResult_history rs initState (by simp [initState])]
  simp [initState]

/-- Any filtered sublist is no longer than the list. -/
lemma framesWithFace_le (h : List FaceDetectionResult) : framesWithFace h ≤ h.length :=
  List.length_filter_le _ _

/-- The detection rate is never negative. -/
lemma faceDetectionRate_nonneg (h : List FaceDetectionResult) : 0 ≤ faceDetectionRate h := by
  unfold faceDetectionRate
  split_ifs with hpos
  · positivity
  · norm_num

/-- The detection rate never exceeds 1. -/
lemma faceDetectionRate_le_one (h : List FaceDetectionResult) : faceDetectionRate h ≤ 1 := by
  unfold faceDetectionRate
  split_ifs with hpos
  · exact div_le_one_of_le₀ (by exact_mod_cast framesWithFace_le h) (by positivity)
  · norm_num

/-- C1: at finalization the verdict isLive is true exactly when all four hard
pass conditions hold: blink count at least 1, head movement latched, mouth
activity count at least 2, and face detection rate at least 0.8; hence no
subset of three satisfied conditions yields a pass. -/
theorem isLive_iff_all_hard_conditions (s : DetState) :
    (finalizeLiveness s).isLive = true ↔
      (1 ≤ s.blinkCount ∧ s.headMoved = true ∧ 2 ≤ s.mouthOpenCount ∧
        8 / 10 ≤ faceDetectionRate s.faceDetectionHistory) := by
  simp [finalizeLiveness, isLiveVerdict, minBlinkCount, minMouthActivity,
    minFaceDetectionRate, Bool.and_eq_true, decide_eq_true_iff, and_assoc]

/-- C1 witness: a concrete state meeting all four hard conditions passes. -/
theorem isLive_iff_all_hard_conditions_witness :
    (finalizeLiveness fullPassState).isLive = true :=
  (isLive_iff_all_hard_conditions fullPassState).mpr
    ⟨by norm_num [fullPassState, initState],
     by norm_num [fullPassState, initState],
     by norm_num [fullPassState, initState],
     by norm_num [fullPassState, initState, faceDetectionRate, framesWithFace, someFaceResult]⟩

/-- C2: the blink registration of processFaceMeshResults never consults
lastBlinkTime, so the documented 500ms blink cooldown is not enforced: the
avgEAR sequence 0.15, 0.30, 0.15 at 0ms, 100ms, 200ms registers two blinks
only 200ms apart (count 2, last registration at 200ms). -/
theorem blink_cooldown_not_enforced :
    (runMesh [earSig (15/100) 0, earSig (30/100) 100, earSig (15/100) 200]).blinkCount = 2 ∧
    (runMesh [earSig (15/100) 0, earSig (30/100) 100, earSig (15/100) 200]).lastBlinkTime = 200 := by
  constructor <;>
  norm_num [runMesh, processFaceMeshStep, blinkStep, mouthStep, headStep, livenessFlagStep,
    earSig, avgEAR, CLOSED_THRESHOLD, OPEN_THRESHOLD, MOUTH_THRESHOLD, MOVEMENT_THRESHOLD,
    detectHeadMovement, initState, List.foldl, abs]

/-- C3: the consecutive-miss counter is tracked but never compared to any
ceiling: a session of 15 straight no-face frames keeps sampling all 15
frames (the counter reaches 15, well past 10), retains the bounded history,
and still ends in an ordinary evaluated verdict rather than an early
failure. -/
theorem miss_ceiling_not_enforced :
    (runFrames (List.replicate 15 noFaceResult)).consecutiveNoFaceFrames = 15 ∧
    (runFrames (List.replicate 15 noFaceResult)).faceDetectionHistory.length = 10 ∧
    (finalizeLiveness (runFrames (List.replicate 15 noFaceResult))).isLive = false := by
  refine ⟨?_, ?_, ?_⟩ <;>
  norm_num [runFrames, trackFrameResult, pushHistory, noFaceResult, initState,
    finalizeLiveness, isLiveVerdict, minBlinkCount, minMouthActivity, minFaceDetectionRate,
    faceDetectionRate, framesWithFace, List.replicate, List.foldl]

/-- C4: the reported confidence is the arithmetic mean of the four factor
confidences, and a completed session with zero blinks but full head
movement, mouth activity and face presence reports confidence 0.75 with a
failing verdict. -/
theorem confidence_mean_of_four_factors :
    (∀ s : DetState, overallConfidence s =
        (min ((s.blinkCount : ℚ) / 1) 1 + (if s.headMoved then 1 else 0) +
          min ((s.mouthOpenCount : ℚ) / 2) 1 +
          faceDetectionRate s.faceDetectionHistory) / 4) ∧
    (finalizeLiveness (runFaceTicks noBlinkSession)).confidence = 3 / 4 ∧
    (finalizeLiveness (runFaceTicks noBlinkSession)).isLive = false := by
  refine ⟨fun s => ?_, ?_, ?_⟩
  · simp [overallConfidence, blinkConfidence, headMovementConfidence, mouthConfidence,
      faceConfidence, minBlinkCount, minMouthActivity]
  · norm_num [runFaceTicks, processFaceTick, processFaceMeshStep, blinkStep, mouthStep,
      headStep, livenessFlagStep, trackFrameResult, pushHistory, meshFrameResult,
      frameConfidence, noBlinkSession, avgEAR, CLOSED_THRESHOLD, OPEN_THRESHOLD,
      MOUTH_THRESHOLD, MOVEMENT_THRESHOLD, detectHeadMovement, initState, List.foldl,
      finalizeLiveness, overallConfidence, blinkConfidence, headMovementConfidence,
      mouthConfidence, faceConfidence, faceDetectionRate, framesWithFace,
      minBlinkCount, minMouthActivity, minFaceDetectionRate, min_def, max_def, abs]
  · norm_num [runFaceTicks, processFaceTick, processFaceMeshStep, blinkStep, mouthStep,
      headStep, livenessFlagStep, trackFrameResult, pushHistory, meshFrameResult,
      frameConfidence, noBlinkSession, avgEAR, CLOSED_THRESHOLD, OPEN_THRESHOLD,
      MOUTH_THRESHOLD, MOVEMENT_THRESHOLD, detectHeadMovement, initState, List.foldl,
      finalizeLiveness, isLiveVerdict, faceDetectionRate, framesWithFace,
      minBlinkCount, minMouthActivity, minFaceDetectionRate, min_def, max_def, abs]

/-- C5: the mouth branch of processFaceMeshResults has no activity cooldown:
two frames with mouth distance 0.05 only 200ms apart both increment the
count, violating the documented 800ms minimum between counted activities. -/
theorem mouth_cooldown_not_enforced :
    (runMesh [mouthSig (5/100) 0, mouthSig (5/100) 200]).mouthOpenCount = 2 := by
  norm_num [runMesh, processFaceMeshStep, blinkStep, mouthStep, headStep, livenessFlagStep,
    mouthSig, avgEAR, CLOSED_THRESHOLD, OPEN_THRESHOLD, MOUTH_THRESHOLD, MOVEMENT_THRESHOLD,
    detectHeadMovement, initState, List.foldl, abs]

/-- C6: blink detection is hysteretic with a dead zone: the avgEAR sequences
0.30, 0.15, 0.30 and 0.30, 0.15, 0.15, 0.30 each register exactly one blink,
and from an in-progress blink the flag is cleared exactly when avgEAR
reaches 0.25. -/
theorem blink_hysteresis_dead_zone :
    (runMesh [earSig (30/100) 0, earSig (15/100) 100, earSig (30/100) 200]).blinkCount = 1 ∧
    (runMesh [earSig (30/100) 0, earSig (15/100) 100, earSig (15/100) 200,
      earSig (30/100) 300]).blinkCount = 1 ∧
    (∀ (s : DetState) (f : FrameSignals), s.blinkInProgress = true →
      ((processFaceMeshStep s f).blinkInProgress = false ↔ OPEN_THRESHOLD ≤ avgEAR f)) := by
  refine ⟨?_, ?_, ?_⟩
  · norm_num [runMesh, processFaceMeshStep, blinkStep, mouthStep, headStep, livenessFlagStep,
      earSig, avgEAR, CLOSED_THRESHOLD, OPEN_THRESHOLD, MOUTH_THRESHOLD, MOVEMENT_THRESHOLD,
      detectHeadMovement, initState, List.foldl, abs]
  · norm_num [runMesh, processFaceMeshStep, blinkStep, mouthStep, headStep, livenessFlagStep,
      earSig, avgEAR, CLOSED_THRESHOLD, OPEN_THRESHOLD, MOUTH_THRESHOLD, MOVEMENT_THRESHOLD,
      detectHeadMovement, initState, List.foldl, abs]
  · intro s f h
    simp only [processFaceMeshStep, livenessFlagStep_blinkInProgress, headStep_blinkInProgress,
      mouthStep_blinkInProgress]
    unfold blinkStep
    simp only [h]
    rw [if_neg (by simp)]
    split_ifs with h2
    · simp [h2]
    · simp [h, h2]

/-- C6 witness: an open-eye frame clears an in-progress blink. -/
theorem blink_hysteresis_dead_zone_witness :
    (processFaceMeshStep { initState with blinkInProgress := true }
      (earSig (30/100) 0)).blinkInProgress = false :=
  (blink_hysteresis_dead_zone.2.2 _ _ rfl).mpr (by norm_num [earSig, avgEAR, OPEN_THRESHOLD])

/-- C7: the first update stores only the nose baseline and never latches
movement; a later update latches exactly when the frame-to-frame nose delta
exceeds 0.02; the sequence 0.50, 0.53 latches while 0.50, 0.51 does not. -/
theorem head_movement_baseline_and_latch :
    (∀ (s : DetState) (f : FrameSignals), s.prevNoseX = none →
        (processFaceMeshStep s f).headMoved = s.headMoved) ∧
    (∀ (s : DetState) (f : FrameSignals) (p : ℚ), s.prevNoseX = some p →
        (processFaceMeshStep s f).headMoved =
          (s.headMoved || decide (MOVEMENT_THRESHOLD < |f.noseX - p|))) ∧
    (runMesh [noseSig (50/100) 0, noseSig (53/100) 100]).headMoved = true ∧
    (runMesh [noseSig (50/100) 0, noseSig (51/100) 100]).headMoved = false := by
  refine ⟨?_, ?_, ?_, ?_⟩
  · intro s f h
    simp only [processFaceMeshStep, livenessFlagStep_headMoved]
    rw [headStep_headMoved]
    simp only [mouthStep_prevNoseX, blinkStep_prevNoseX, mouthStep_headMoved,
      blinkStep_headMoved, h]
    norm_num [detectHeadMovement, MOVEMENT_THRESHOLD]
  · intro s f p h
    simp only [processFaceMeshStep, livenessFlagStep_headMoved]
    rw [headStep_headMoved]
    simp only [mouthStep_prevNoseX, blinkStep_prevNoseX, mouthStep_headMoved,
      blinkStep_headMoved, h]
    rfl
  · norm_num [runMesh, processFaceMeshStep, blinkStep, mouthStep, headStep, livenessFlagStep,
      noseSig, avgEAR, CLOSED_THRESHOLD, OPEN_THRESHOLD, MOUTH_THRESHOLD, MOVEMENT_THRESHOLD,
      detectHeadMovement, initState, List.foldl, abs]
  · norm_num [runMesh, processFaceMeshStep, blinkStep, mouthStep, headStep, livenessFlagStep,
      noseSig, avgEAR, CLOSED_THRESHOLD, OPEN_THRESHOLD, MOUTH_THRESHOLD, MOVEMENT_THRESHOLD,
      detectHeadMovement, initState, List.foldl, abs]

/-- C7 witness: the first update on a fresh session never latches, and a
stored baseline of 0.50 followed by nose x 0.53 latches movement. -/
theorem head_movement_baseline_and_latch_witness :
    (processFaceMeshStep initState (noseSig (99/100) 0)).headMoved = false ∧
    (processFaceMeshStep { initState with prevNoseX := some (50/100) }
      (noseSig (53/100) 0)).headMoved = true := by
  constructor
  · rw [head_movement_baseline_and_latch.1 initState (noseSig (99/100) 0) rfl]
    rfl
  · rw [head_movement_baseline_and_latch.2.1 _ (noseSig (53/100) 0) (50/100) rfl]
    norm_num [noseSig, initState, abs, MOVEMENT_THRESHOLD]

/-- C8: the number of frames with a face never exceeds the total, the
detection rate always lies in the unit interval, and the rate of an empty
history is 0; this holds in particular for every session state reached by
the frame bookkeeping. -/
theorem face_presence_invariants :
    (∀ h : List FaceDetectionResult,
        framesWithFace h ≤ h.length ∧
        0 ≤ faceDetectionRate h ∧ faceDetectionRate h ≤ 1) ∧
    faceDetectionRate [] = 0 ∧
    (∀ rs : List FaceDetectionResult,
        framesWithFace (runFrames rs).faceDetectionHistory ≤
          (runFrames rs).faceDetectionHistory.length ∧
        0 ≤ faceDetectionRate (runFrames rs).faceDetectionHistory ∧
        faceDetectionRate (runFrames rs).faceDetectionHistory ≤ 1) := by
  refine ⟨fun h => ⟨framesWithFace_le h, faceDetectionRate_nonneg h, faceDetectionRate_le_one h⟩,
    rfl, fun rs => ⟨framesWithFace_le _, faceDetectionRate_nonneg _, faceDetectionRate_le_one _⟩⟩

/-- C9: the frame history evicts its oldest entry past 10 items, so after any
run it equals the last-ten suffix of the processed results, and the final
detection rate depends only on the last 10 frames. -/
theorem history_bounded_last_ten :
    (∀ rs : List FaceDetectionResult,
        (runFrames rs).faceDetectionHistory = lastTen rs) ∧
    (∀ rs₁ rs₂ : List FaceDetectionResult, lastTen rs₁ = lastTen rs₂ →
        faceDetectionRate (runFrames rs₁).faceDetectionHistory =
          faceDetectionRate (runFrames rs₂).faceDetectionHistory) := by
  refine ⟨runFrames_history, fun rs₁ rs₂ h => ?_⟩
  rw [runFrames_history, runFrames_history, h]

/-- C9 witness: an 11-frame session and a 10-frame session with the same last
ten frames report the same detection rate. -/
theorem history_bounded_last_ten_witness :
    (runFrames (List.replicate 11 noFaceResult)).faceDetectionHistory =
      lastTen (List.replicate 11 noFaceResult) ∧
    faceDetectionRate (runFrames (List.replicate 11 noFaceResult)).faceDetectionHistory =
      faceDetectionRate (runFrames (List.replicate 10 noFaceResult)).faceDetectionHistory :=
  ⟨history_bounded_last_ten.1 _,
   history_bounded_last_ten.2 _ _ (by
     simp [lastTen, List.drop_replicate])⟩

/-- C10: the sampling window of performLivenessCheck is the configured
CHECK_DURATION irrespective of the duration argument, the final verdict over
the same captured frames is identical for any two duration arguments, and
the duration argument does change the reported progress percentage. -/
theorem duration_only_affects_progress :
    (∀ (env : LivenessEnv) (d₁ d₂ : ℕ) (rs : List FaceDetectionResult),
        (performLivenessCheckModel env d₁ rs).1 = (performLivenessCheckModel env d₂ rs).1) ∧
    (∀ (env : LivenessEnv) (d : ℕ), samplingWindowMs env d = env.CHECK_DURATION) ∧
    progressPercent 8000 2000 = 25 ∧ progressPercent 4000 2000 = 50 := by
  refine ⟨fun env d₁ d₂ rs => rfl, fun env d => rfl, ?_, ?_⟩ <;>
    norm_num [progressPercent, min_def, max_def]

end Flashback
